import Mathlib

/-
Formal model of the waprint WhatsApp print bot (bot.js).

The model is a shallow embedding of the job lifecycle, the option-negotiation
conversation handlers, the execution engine with its retry loop, the per-sender
rate limiter, and the reclamation sweeps.  JS `Map`s are modelled as
association lists with JS `Map` semantics (set replaces in place or appends,
delete removes by key, get returns the value at the key).  Message sends and
timers are modelled as an emitted list of effects.  Calls to methods that
bot.js never defines (cancelPrintJob, showQualityOptions, showPaperSizeOptions)
are modelled as thrown TypeErrors via `Except.error`.
-/

namespace Waprint

/-! ## JS Map model (association lists) -/

/-- JS Map.get: value stored at key `k`, if any. -/
def mapGet {β : Type} (k : String) (m : List (String × β)) : Option β :=
  (m.find? (fun p => decide (p.1 = k))).map Prod.snd

/-- JS Map.set: replace the entry for `k` in place if present, else append. -/
def mapSet {β : Type} (k : String) (v : β) (m : List (String × β)) : List (String × β) :=
  if m.any (fun p => decide (p.1 = k)) then
    m.map (fun p => if p.1 = k then (k, v) else p)
  else m ++ [(k, v)]

/-- JS Map.delete: drop every entry stored at key `k`. -/
def mapDelete {β : Type} (k : String) (m : List (String × β)) : List (String × β) :=
  m.filter (fun p => decide (¬ p.1 = k))

/-! ## Data model (the printJob object literal, sessions, stats) -/

/-- Job lifecycle status strings used by bot.js. -/
inductive JobStatus
  | pending
  | printing
  | completed
  | failed
deriving DecidableEq, Repr

/-- The printOptions sub-object of a print job (bot.js lines 379-384). -/
structure PrintOptions where
  color : Bool
  duplex : Bool
  paperSize : String
  quality : String
deriving DecidableEq, Repr

/-- The print-job object built in handleFileMessage (bot.js lines 367-387).
Timestamps are integer epoch milliseconds. -/
structure PrintJob where
  id : String
  fileName : String
  originalName : String
  filePath : String
  extension : String
  pageCount : Nat
  fileSize : Nat
  chatId : String
  userNumber : String
  status : JobStatus
  copies : Nat
  printOptions : PrintOptions
  createdAt : Int
  startedAt : Option Int
  completedAt : Option Int
  failedAt : Option Int
  estimatedCost : Nat
deriving DecidableEq, Repr

/-- Conversation step strings stored in userSessions. -/
inductive Step
  | confirm_print
  | set_copies
  | set_options
deriving DecidableEq, Repr

/-- A userSessions entry (bot.js lines 394-398). -/
structure Session where
  step : Step
  printJobId : String
  lastActivity : Int
deriving DecidableEq, Repr

/-- A userStats entry (bot.js lines 218-224). -/
structure UserStat where
  totalRequests : Nat
  totalPrints : Nat
  totalPages : Nat
  firstSeen : Int
  lastSeen : Int
deriving DecidableEq, Repr

/-- The mutable collections of EnhancedWhatsAppPrintBot that the handlers
touch: printQueue, userSessions, userStats and printHistory. -/
structure BotState where
  printQueue : List (String × PrintJob)
  userSessions : List (String × Session)
  userStats : List (String × UserStat)
  printHistory : List PrintJob
deriving DecidableEq, Repr

/-- Observable side effects of a handler: replies, message edits, the deferred
cleanup timer (setTimeout) and file deletion (fs.unlinkSync). -/
inductive Effect
  | reply (text : String)
  | editReply (text : String)
  | scheduleCleanup (jobId : String) (delayMs : Nat)
  | unlinkFile (path : String)
deriving DecidableEq, Repr

/-! ## Cost computation and job creation -/

/-- Per-page rate for black-and-white printing (calculatePrintCost, line 519). -/
def bwCostPerPage : Nat := 500

/-- Per-page rate for color printing (calculatePrintCost, line 520). -/
def colorCostPerPage : Nat := 2000

/-- calculatePrintCost (bot.js lines 518-524): pages times the per-page rate
selected by the color flag.  Note the function takes no copies argument. -/
def calculatePrintCost (pageCount : Nat) (hasColor : Bool) : Nat :=
  let costPerPage := if hasColor then colorCostPerPage else bwCostPerPage
  pageCount * costPerPage

/-- The print-job object literal of handleFileMessage (bot.js lines 367-387):
status pending, copies from config.printSettings.defaultCopies, options
defaulted, and estimatedCost from calculatePrintCost on the analysis result. -/
def createPrintJob (idStr fileName originalName filePath extension : String)
    (pageCount fileSize : Nat) (hasColor : Bool) (chatId userNumber : String)
    (defaultCopies : Nat) (now : Int) : PrintJob :=
  { id := idStr
    fileName := fileName
    originalName := originalName
    filePath := filePath
    extension := extension
    pageCount := pageCount
    fileSize := fileSize
    chatId := chatId
    userNumber := userNumber
    status := JobStatus.pending
    copies := defaultCopies
    printOptions :=
      { color := hasColor, duplex := false, paperSize := "A4", quality := "normal" }
    createdAt := now
    startedAt := none
    completedAt := none
    failedAt := none
    estimatedCost := calculatePrintCost pageCount hasColor }

/-- Queue insertion and session creation after the job literal is built
(bot.js lines 389-398). -/
def enqueueNewJob (st : BotState) (job : PrintJob) (now : Int) : BotState :=
  { st with
    printQueue := mapSet job.id job st.printQueue
    userSessions :=
      mapSet job.chatId { step := Step.confirm_print, printJobId := job.id, lastActivity := now }
        st.userSessions }

/-! ## Option negotiation handlers -/

/-- Accumulate the maximal run of leading decimal digits; `none` when the run
is empty (parseInt would yield NaN). -/
def parseDigits : List Char → Option Nat → Option Nat
  | [], acc => acc
  | c :: cs, acc =>
    if c.isDigit then parseDigits cs (some (acc.getD 0 * 10 + (c.toNat - 48)))
    else acc

/-- JS parseInt as applied to the already trimmed, lowercased message body in
handleCopiesInput (bot.js line 657): an optional sign followed by the maximal
run of leading decimal digits; `none` models NaN.  (The hexadecimal 0x form of
parseInt is outside the inputs this prompt solicits and is not modelled.) -/
def jsParseInt (s : String) : Option Int :=
  match s.data with
  | '-' :: rest => (parseDigits rest none).map (fun n => -(n : Int))
  | '+' :: rest => (parseDigits rest none).map (fun n => (n : Int))
  | cs => (parseDigits cs none).map (fun n => (n : Int))

/-- showPrintOptions (bot.js lines 584-612): reply with the options menu and
re-set the session to step set_options.  On a missing job: reply with an error
and return, leaving the session untouched. -/
def showPrintOptions (st : BotState) (chatId printJobId : String) (now : Int) :
    BotState × List Effect :=
  match mapGet printJobId st.printQueue with
  | none => (st, [Effect.reply "Print job tidak ditemukan."])
  | some _ =>
    ({ st with
        userSessions :=
          mapSet chatId { step := Step.set_options, printJobId := printJobId, lastActivity := now }
            st.userSessions },
     [Effect.reply "Opsi Cetak: ketik nomor pilihan 1-5"])

/-- showUpdatedConfirmation (bot.js lines 678-697): reply with the rebuilt
confirmation summary and re-set the session to step confirm_print.  On a
missing job: reply with an error, leaving the session untouched. -/
def showUpdatedConfirmation (st : BotState) (chatId printJobId : String) (now : Int) :
    BotState × List Effect :=
  match mapGet printJobId st.printQueue with
  | none => (st, [Effect.reply "Print job tidak ditemukan."])
  | some _ =>
    ({ st with
        userSessions :=
          mapSet chatId
            { step := Step.confirm_print, printJobId := printJobId, lastActivity := now }
            st.userSessions },
     [Effect.reply "File Diterima dan Dianalisis"])

/-- handleCopiesInput (bot.js lines 656-676): parse the response with parseInt,
look the job up; on a missing job reply and return (session untouched); on a
value outside 1-10 (or NaN) re-prompt; otherwise set copies, recompute
estimatedCost as calculatePrintCost(pageCount, color) * copies — with no check
of the job status — then confirm and fall through to showPrintOptions. -/
def handleCopiesInput (st : BotState) (chatId response printJobId : String) (now : Int) :
    BotState × List Effect :=
  let copies? := jsParseInt response
  match mapGet printJobId st.printQueue with
  | none => (st, [Effect.reply "Print job tidak ditemukan."])
  | some printJob =>
    match copies? with
    | none => (st, [Effect.reply "Jumlah salinan harus antara 1-10. Coba lagi:"])
    | some copies =>
      if copies < 1 ∨ copies > 10 then
        (st, [Effect.reply "Jumlah salinan harus antara 1-10. Coba lagi:"])
      else
        let copiesN := copies.toNat
        let job' := { printJob with
          copies := copiesN
          estimatedCost := calculatePrintCost printJob.pageCount printJob.printOptions.color * copiesN }
        let st' := { st with printQueue := mapSet printJobId job' st.printQueue }
        let menu := showPrintOptions st' chatId printJobId now
        (menu.1, Effect.reply "Jumlah salinan diubah" :: menu.2)

/-- handleOptionsInput (bot.js lines 614-654).  On a missing job: reply and
return, session untouched.  Option 1 moves the session to set_copies; options
2 and 3 call this.showQualityOptions / this.showPaperSizeOptions, methods the
class never defines, so those branches throw a TypeError (modelled as
`Except.error`); option 4 toggles duplex in place with no status check and
falls through to showPrintOptions; option 5 falls through to
showUpdatedConfirmation; anything else re-prompts. -/
def handleOptionsInput (st : BotState) (chatId response printJobId : String) (now : Int) :
    Except String (BotState × List Effect) :=
  match mapGet printJobId st.printQueue with
  | none => Except.ok (st, [Effect.reply "Print job tidak ditemukan."])
  | some printJob =>
    if response = "1" then
      Except.ok
        ({ st with
            userSessions :=
              mapSet chatId
                { step := Step.set_copies, printJobId := printJobId, lastActivity := now }
                st.userSessions },
         [Effect.reply "Masukkan jumlah salinan (1-10):"])
    else if response = "2" then
      Except.error "TypeError: this.showQualityOptions is not a function"
    else if response = "3" then
      Except.error "TypeError: this.showPaperSizeOptions is not a function"
    else if response = "4" then
      let job' := { printJob with
        printOptions := { printJob.printOptions with duplex := !printJob.printOptions.duplex } }
      let st' := { st with printQueue := mapSet printJobId job' st.printQueue }
      let menu := showPrintOptions st' chatId printJobId now
      Except.ok (menu.1, Effect.reply "Duplex printing diubah" :: menu.2)
    else if response = "5" then
      Except.ok (showUpdatedConfirmation st chatId printJobId now)
    else
      Except.ok (st, [Effect.reply "Pilihan tidak valid. Ketik nomor 1-5."])

/-! ## Execution engine -/

/-- Fixed delay in milliseconds between consecutive print attempts
(bot.js line 815). -/
def retryDelayMs : Nat := 2000

/-- The for-loop of executePrintWithRetry (bot.js lines 805-819), with
`outcome k` the result of executePrint on attempt number k.  `fuel` is the
number of attempts still allowed including the current one, so the loop body
runs for attempt numbers `attempt, attempt+1, ...` while fuel lasts.  Returns
(success, attemptsMade, msWaited): msWaited sums the 2000 ms sleeps taken
after a failed attempt that is not the last one. -/
def retryLoop (outcome : Nat → Bool) (maxRetries : Nat) : Nat → Nat → Bool × Nat × Nat
  | 0, _ => (false, 0, 0)
  | fuel + 1, attempt =>
    if outcome attempt then (true, 1, 0)
    else
      let rest := retryLoop outcome maxRetries fuel (attempt + 1)
      (rest.1, rest.2.1 + 1, rest.2.2 + (if attempt < maxRetries then retryDelayMs else 0))

/-- executePrintWithRetry (bot.js lines 805-819): attempts numbered 1 up to
maxRetries; the first success returns true immediately; between failed
attempts (but not after the last) the loop sleeps retryDelayMs. -/
def executePrintWithRetry (outcome : Nat → Bool) (maxRetries : Nat) : Bool × Nat × Nat :=
  retryLoop outcome maxRetries maxRetries 1

/-- Result of one processPrintJob run: the new bot state, the emitted effects,
and how many executePrint attempts were made. -/
structure PrintRunResult where
  st : BotState
  effects : List Effect
  attemptsMade : Nat
deriving DecidableEq, Repr

/-- processPrintJob (bot.js lines 699-785).  `printerOnline` is the result of
checkPrinter, `outcome` the per-attempt executePrint result.  Faithful branch
structure: a missing job replies, deletes the session and returns; otherwise
status becomes printing with startedAt set; if the printer is offline the
status becomes failed and the function returns early — before the session
delete and before the setTimeout that schedules cleanupPrintJob — so neither
happens; otherwise executePrintWithRetry runs with maxRetries = 3; on success
the job becomes completed (completedAt set), the owner stats gain one print
and pageCount * copies pages, and a snapshot is unshifted onto printHistory
(capped at 100); on failure the job becomes failed with failedAt set and
nothing is appended to printHistory; both of those paths then delete the
session and schedule cleanupPrintJob after 300000 ms. -/
def processPrintJob (st : BotState) (chatId userNumber printJobId : String)
    (printerOnline : Bool) (outcome : Nat → Bool) (now : Int) : PrintRunResult :=
  match mapGet printJobId st.printQueue with
  | none =>
    { st := { st with userSessions := mapDelete chatId st.userSessions }
      effects := [Effect.reply "Print job tidak ditemukan."]
      attemptsMade := 0 }
  | some printJob =>
    let job1 := { printJob with status := JobStatus.printing, startedAt := some now }
    let st1 := { st with printQueue := mapSet printJobId job1 st.printQueue }
    if !printerOnline then
      let job2 := { job1 with status := JobStatus.failed }
      { st := { st1 with printQueue := mapSet printJobId job2 st1.printQueue }
        effects :=
          [Effect.reply "Memproses print job...",
           Effect.editReply "Printer sedang offline atau bermasalah. Silakan coba lagi nanti."]
        attemptsMade := 0 }
    else
      let run := executePrintWithRetry outcome 3
      if run.1 then
        let job2 := { job1 with status := JobStatus.completed, completedAt := some now }
        let stats' :=
          match mapGet userNumber st1.userStats with
          | some u =>
            mapSet userNumber
              { u with
                totalPrints := u.totalPrints + 1
                totalPages := u.totalPages + job2.pageCount * job2.copies }
              st1.userStats
          | none => st1.userStats
        { st := { st1 with
            printQueue := mapSet printJobId job2 st1.printQueue
            userStats := stats'
            printHistory := (job2 :: st1.printHistory).take 100
            userSessions := mapDelete chatId st1.userSessions }
          effects :=
            [Effect.reply "Memproses print job...",
             Effect.editReply "Mengirim ke printer...",
             Effect.editReply "Print Berhasil!",
             Effect.scheduleCleanup printJobId 300000]
          attemptsMade := run.2.1 }
      else
        let job2 := { job1 with status := JobStatus.failed, failedAt := some now }
        { st := { st1 with
            printQueue := mapSet printJobId job2 st1.printQueue
            userSessions := mapDelete chatId st1.userSessions }
          effects :=
            [Effect.reply "Memproses print job...",
             Effect.editReply "Mengirim ke printer...",
             Effect.editReply "Print gagal setelah beberapa percobaan.",
             Effect.scheduleCleanup printJobId 300000]
          attemptsMade := run.2.1 }

/-- handleUserResponse (bot.js lines 554-582): dispatch on the session step.
In confirm_print, a yes word runs processPrintJob; a cancel word calls
this.cancelPrintJob, a method the class never defines, so that branch throws
a TypeError before touching any state (modelled as `Except.error`); an
options word runs showPrintOptions; anything else re-prompts. -/
def handleUserResponse (st : BotState) (chatId userNumber response : String)
    (printerOnline : Bool) (outcome : Nat → Bool) (now : Int) :
    Except String (BotState × List Effect) :=
  match mapGet chatId st.userSessions with
  | none => Except.ok (st, [])
  | some session =>
    match session.step with
    | Step.confirm_print =>
      if ["ya", "y", "yes", "ok"].contains response then
        let run := processPrintJob st chatId userNumber session.printJobId printerOnline outcome now
        Except.ok (run.st, run.effects)
      else if ["batal", "cancel", "no", "tidak"].contains response then
        Except.error "TypeError: this.cancelPrintJob is not a function"
      else if ["opsi", "option", "setting"].contains response then
        Except.ok (showPrintOptions st chatId session.printJobId now)
      else
        Except.ok (st, [Effect.reply "Respon tidak valid. Ketik YA, BATAL, atau OPSI"])
    | Step.set_copies =>
      Except.ok (handleCopiesInput st chatId response session.printJobId now)
    | Step.set_options =>
      handleOptionsInput st chatId response session.printJobId now

/-! ## Rate limiter -/

/-- One hour in milliseconds, the sliding window of checkRateLimit. -/
def hourMs : Int := 60 * 60 * 1000

/-- checkRateLimit (bot.js lines 195-214) for one sender: purge timestamps no
newer than an hour ago, deny without recording when the remaining count has
reached maxRequestsPerHour, otherwise record the current timestamp and admit.
Returns (admitted, new timestamp list). -/
def checkRateLimit (maxRequestsPerHour : Nat) (now : Int) (userRequests : List Int) :
    Bool × List Int :=
  let recentRequests := userRequests.filter (fun ts => decide (now - hourMs < ts))
  if maxRequestsPerHour ≤ recentRequests.length then (false, recentRequests)
  else (true, recentRequests ++ [now])

/-- A sequence of checkRateLimit calls for one sender at the given call times,
starting from the given stored timestamp list; yields each call time paired
with its admission decision. -/
def rateLimitRun (maxRequestsPerHour : Nat) : List Int → List Int → List (Int × Bool)
  | _, [] => []
  | stored, t :: ts =>
    let r := checkRateLimit maxRequestsPerHour t stored
    (t, r.1) :: rateLimitRun maxRequestsPerHour r.2 ts

/-- Call times of the admitted (true) calls of a run trace. -/
def admittedTimes (trace : List (Int × Bool)) : List Int :=
  (trace.filter (fun p => p.2)).map Prod.fst

/-- Membership of time t in the trailing one-hour window ending at u. -/
def inWindow (u t : Int) : Bool :=
  decide (u - hourMs < t) && decide (t ≤ u)

/-! ## Reclamation sweeps -/

/-- cleanupPrintJob (bot.js lines 1252-1268): when the job is present, unlink
its backing file and delete it from the print queue; a missing id does
nothing. -/
def cleanupPrintJob (st : BotState) (printJobId : String) : BotState × List Effect :=
  match mapGet printJobId st.printQueue with
  | none => (st, [])
  | some printJob =>
    ({ st with printQueue := mapDelete printJobId st.printQueue },
     [Effect.unlinkFile printJob.filePath])

/-- Maximum age in milliseconds before a terminal job may be swept
(cleanupOldPrintJobs, bot.js line 1311). -/
def jobMaxAgeMs : Int := 60 * 60 * 1000

/-- True exactly when the sweep condition of cleanupOldPrintJobs holds: the
job is older than jobMaxAgeMs and its status is completed or failed. -/
def sweepVictim (now : Int) (job : PrintJob) : Bool :=
  decide (now - job.createdAt > jobMaxAgeMs) &&
    (decide (job.status = JobStatus.completed) || decide (job.status = JobStatus.failed))

/-- Run cleanupPrintJob on each listed entry in turn, accumulating effects. -/
def sweepFold : List (String × PrintJob) → BotState × List Effect → BotState × List Effect
  | [], acc => acc
  | v :: vs, acc =>
    let r := cleanupPrintJob acc.1 v.1
    sweepFold vs (r.1, acc.2 ++ r.2)

/-- cleanupOldPrintJobs (bot.js lines 1309-1325): iterate the print queue and
run cleanupPrintJob on every entry that is terminal (completed or failed) and
older than jobMaxAgeMs.  Jobs failing that test — in particular every job
still pending — are not touched. -/
def cleanupOldPrintJobs (st : BotState) (now : Int) : BotState × List Effect :=
  sweepFold (st.printQueue.filter (fun p => sweepVictim now p.2)) (st, [])

/-- cleanupOldSessions (bot.js lines 1292-1307): delete every session idle for
more than 15 minutes. -/
def cleanupOldSessions (st : BotState) (now : Int) : BotState :=
  { st with
    userSessions :=
      st.userSessions.filter (fun p => decide (¬ now - p.2.lastActivity > 15 * 60 * 1000)) }

/-! ## Concrete fixtures used to evaluate the model -/

/-- A bot state with the given queue and session entries and empty stats and
history. -/
def mkState (jobs : List (String × PrintJob)) (sessions : List (String × Session)) : BotState :=
  { printQueue := jobs, userSessions := sessions, userStats := [], printHistory := [] }

/-- A three-page black-and-white pdf job as handleFileMessage would create it
with the stock configuration (defaultCopies = 1). -/
def exJob : PrintJob :=
  createPrintJob "1730000000000" "print_628_1730000000000.pdf" "doc.pdf"
    "temp/print_628_1730000000000.pdf" "pdf" 3 2048 false "628@c.us" "628" 1 1730000000000

/-- The same upload as exJob created under a config with defaultCopies = 2. -/
def exJobTwoCopies : PrintJob :=
  createPrintJob "1730000000000" "print_628_1730000000000.pdf" "doc.pdf"
    "temp/print_628_1730000000000.pdf" "pdf" 3 2048 false "628@c.us" "628" 2 1730000000000

/-- exJob after the execution engine has marked it completed. -/
def exJobCompleted : PrintJob :=
  { exJob with
      status := JobStatus.completed
      startedAt := some 1730000100000
      completedAt := some 1730000200000 }

/-- A session for exJob at the given step. -/
def exSession (step : Step) : Session :=
  { step := step, printJobId := exJob.id, lastActivity := 1730000000000 }

/-! ## Lemmas about the JS Map model -/

theorem find?_map_set {β : Type} (k : String) (v : β) (m : List (String × β))
    (h : m.any (fun p => decide (p.1 = k)) = true) :
    (m.map (fun p => if p.1 = k then (k, v) else p)).find? (fun p => decide (p.1 = k)) =
      some (k, v) := by
  induction m with
  | nil => simp at h
  | cons a t ih =>
    rw [List.map_cons]
    by_cases hk : a.1 = k
    · rw [if_pos hk, List.find?_cons_of_pos _ (by simp)]
    · have h' : t.any (fun p => decide (p.1 = k)) = true := by
        rcases (List.any_cons ▸ h : _) with h1
        simpa [hk] using h1
      rw [if_neg hk, List.find?_cons_of_neg _ (by simpa using hk), ih h']

theorem find?_map_set_ne {β : Type} (j k : String) (v : β) (m : List (String × β))
    (hjk : j ≠ k) :
    (m.map (fun p => if p.1 = k then (k, v) else p)).find? (fun p => decide (p.1 = j)) =
      m.find? (fun p => decide (p.1 = j)) := by
  induction m with
  | nil => simp
  | cons a t ih =>
    rw [List.map_cons]
    by_cases hk : a.1 = k
    · have haj : ¬ a.1 = j := by rw [hk]; exact fun h => hjk h.symm
      rw [if_pos hk, List.find?_cons_of_neg _ (by simpa using Ne.symm hjk),
        List.find?_cons_of_neg _ (by simpa using haj), ih]
    · by_cases haj : a.1 = j
      · rw [if_neg hk, List.find?_cons_of_pos _ (by simpa using haj),
          List.find?_cons_of_pos _ (by simpa using haj)]
      · rw [if_neg hk, List.find?_cons_of_neg _ (by simpa using haj),
          List.find?_cons_of_neg _ (by simpa using haj), ih]

theorem mapGet_mapSet_self {β : Type} (k : String) (v : β) (m : List (String × β)) :
    mapGet k (mapSet k v m) = some v := by
  unfold mapGet mapSet
  by_cases h : m.any (fun p => decide (p.1 = k)) = true
  · rw [if_pos h, find?_map_set k v m h]
    rfl
  · rw [if_neg h, List.find?_append]
    have hnone : m.find? (fun p => decide (p.1 = k)) = none := by
      rw [List.find?_eq_none]
      intro x hx hpx
      exact h (List.any_eq_true.mpr ⟨x, hx, hpx⟩)
    rw [hnone]
    simp

theorem mapGet_mapSet_ne {β : Type} (j k : String) (v : β) (m : List (String × β))
    (hjk : j ≠ k) : mapGet j (mapSet k v m) = mapGet j m := by
  unfold mapGet mapSet
  by_cases h : m.any (fun p => decide (p.1 = k)) = true
  · rw [if_pos h, find?_map_set_ne j k v m hjk]
  · rw [if_neg h, List.find?_append]
    have hlast : List.find? (fun p => decide (p.1 = j)) [(k, v)] = none := by
      simp [Ne.symm hjk]
    rw [hlast]
    cases m.find? (fun p => decide (p.1 = j)) <;> rfl

theorem mapGet_mapDelete_self {β : Type} (k : String) (m : List (String × β)) :
    mapGet k (mapDelete k m) = none := by
  unfold mapGet mapDelete
  rw [Option.map_eq_none', List.find?_eq_none]
  intro x hx
  simp only [List.mem_filter] at hx
  simpa using hx.2

theorem mapGet_mapDelete_ne {β : Type} (j k : String) (m : List (String × β))
    (hjk : j ≠ k) : mapGet j (mapDelete k m) = mapGet j m := by
  unfold mapGet mapDelete
  congr 1
  induction m with
  | nil => simp
  | cons a t ih =>
    rw [List.filter_cons]
    by_cases hk : a.1 = k
    · have haj : ¬ a.1 = j := by rw [hk]; exact fun h => hjk h.symm
      rw [if_neg (by simpa using hk), List.find?_cons_of_neg _ (by simpa using haj), ih]
    · by_cases haj : a.1 = j
      · rw [if_pos (by simpa using hk), List.find?_cons_of_pos _ (by simpa using haj),
          List.find?_cons_of_pos _ (by simpa using haj)]
      · rw [if_pos (by simpa using hk), List.find?_cons_of_neg _ (by simpa using haj),
          List.find?_cons_of_neg _ (by simpa using haj), ih]

theorem mapGet_mem {β : Type} {k : String} {v : β} {m : List (String × β)}
    (h : mapGet k m = some v) : (k, v) ∈ m := by
  unfold mapGet at h
  rcases Option.map_eq_some'.mp h with ⟨p, hp, hsnd⟩
  have hmem := List.mem_of_find?_eq_some hp
  have hkey : p.1 = k := by
    have := List.find?_some hp
    simpa using this
  have hpkv : p = (k, v) := by
    cases p
    simp only at hkey hsnd
    rw [hkey, hsnd]
  rwa [hpkv] at hmem

/-! ## Branch characterizations of the handlers -/

theorem handleCopiesInput_valid (st : BotState) (chatId response printJobId : String)
    (now : Int) (job : PrintJob) (k : Int)
    (hget : mapGet printJobId st.printQueue = some job)
    (hparse : jsParseInt response = some k) (h1 : 1 ≤ k) (h10 : k ≤ 10) :
    handleCopiesInput st chatId response printJobId now =
      let job' := { job with
        copies := k.toNat
        estimatedCost := calculatePrintCost job.pageCount job.printOptions.color * k.toNat }
      let st' := { st with printQueue := mapSet printJobId job' st.printQueue }
      ({ st' with
          userSessions :=
            mapSet chatId
              { step := Step.set_options, printJobId := printJobId, lastActivity := now }
              st'.userSessions },
       [Effect.reply "Jumlah salinan diubah", Effect.reply "Opsi Cetak: ketik nomor pilihan 1-5"]) := by
  have hrange : ¬ (k < 1 ∨ k > 10) := by omega
  simp only [handleCopiesInput, hget, hparse, hrange, if_false, showPrintOptions,
    mapGet_mapSet_self]

theorem handleCopiesInput_notfound (st : BotState) (chatId response printJobId : String)
    (now : Int) (hget : mapGet printJobId st.printQueue = none) :
    handleCopiesInput st chatId response printJobId now =
      (st, [Effect.reply "Print job tidak ditemukan."]) := by
  simp only [handleCopiesInput, hget]

theorem handleOptionsInput_notfound (st : BotState) (chatId response printJobId : String)
    (now : Int) (hget : mapGet printJobId st.printQueue = none) :
    handleOptionsInput st chatId response printJobId now =
      Except.ok (st, [Effect.reply "Print job tidak ditemukan."]) := by
  simp only [handleOptionsInput, hget]

theorem handleOptionsInput_duplex (st : BotState) (chatId printJobId : String)
    (now : Int) (job : PrintJob)
    (hget : mapGet printJobId st.printQueue = some job) :
    handleOptionsInput st chatId "4" printJobId now =
      let job' := { job with
        printOptions := { job.printOptions with duplex := !job.printOptions.duplex } }
      let st' := { st with printQueue := mapSet printJobId job' st.printQueue }
      Except.ok
        ({ st' with
            userSessions :=
              mapSet chatId
                { step := Step.set_options, printJobId := printJobId, lastActivity := now }
                st'.userSessions },
         [Effect.reply "Duplex printing diubah", Effect.reply "Opsi Cetak: ketik nomor pilihan 1-5"]) := by
  simp only [handleOptionsInput, hget, showPrintOptions, mapGet_mapSet_self]
  rw [if_neg (by decide), if_neg (by decide), if_neg (by decide), if_pos trivial]

theorem executePrintWithRetry_three (o : Nat → Bool) :
    executePrintWithRetry o 3 =
      if o 1 then (true, 1, 0)
      else if o 2 then (true, 2, 2000)
      else if o 3 then (true, 3, 4000)
      else (false, 3, 4000) := by
  cases h1 : o 1 <;> cases h2 : o 2 <;> cases h3 : o 3 <;>
    simp [executePrintWithRetry, retryLoop, h1, h2, h3, retryDelayMs]

theorem processPrintJob_notfound (st : BotState) (chatId userNumber printJobId : String)
    (printerOnline : Bool) (o : Nat → Bool) (now : Int)
    (hget : mapGet printJobId st.printQueue = none) :
    processPrintJob st chatId userNumber printJobId printerOnline o now =
      { st := { st with userSessions := mapDelete chatId st.userSessions }
        effects := [Effect.reply "Print job tidak ditemukan."]
        attemptsMade := 0 } := by
  simp only [processPrintJob, hget]

theorem processPrintJob_offline (st : BotState) (chatId userNumber printJobId : String)
    (o : Nat → Bool) (now : Int) (job : PrintJob)
    (hget : mapGet printJobId st.printQueue = some job) :
    processPrintJob st chatId userNumber printJobId false o now =
      { st := { st with
          printQueue :=
            mapSet printJobId { job with status := JobStatus.failed, startedAt := some now }
              (mapSet printJobId { job with status := JobStatus.printing, startedAt := some now }
                st.printQueue) }
        effects :=
          [Effect.reply "Memproses print job...",
           Effect.editReply "Printer sedang offline atau bermasalah. Silakan coba lagi nanti."]
        attemptsMade := 0 } := by
  simp only [processPrintJob, hget, Bool.not_false, if_true]

theorem processPrintJob_online_success (st : BotState) (chatId userNumber printJobId : String)
    (o : Nat → Bool) (now : Int) (job : PrintJob)
    (hget : mapGet printJobId st.printQueue = some job)
    (hrun : (executePrintWithRetry o 3).1 = true) :
    processPrintJob st chatId userNumber printJobId true o now =
      let job2 := { job with
        status := JobStatus.completed
        startedAt := some now
        completedAt := some now }
      let q1 := mapSet printJobId { job with status := JobStatus.printing, startedAt := some now }
        st.printQueue
      let stats' :=
        match mapGet userNumber st.userStats with
        | some u =>
          mapSet userNumber
            { u with
              totalPrints := u.totalPrints + 1
              totalPages := u.totalPages + job2.pageCount * job2.copies }
            st.userStats
        | none => st.userStats
      { st := { st with
          printQueue := mapSet printJobId job2 q1
          userStats := stats'
          printHistory := (job2 :: st.printHistory).take 100
          userSessions := mapDelete chatId st.userSessions }
        effects :=
          [Effect.reply "Memproses print job...",
           Effect.editReply "Mengirim ke printer...",
           Effect.editReply "Print Berhasil!",
           Effect.scheduleCleanup printJobId 300000]
        attemptsMade := (executePrintWithRetry o 3).2.1 } := by
  simp only [processPrintJob, hget, Bool.not_true, hrun, if_true]
  rw [if_neg (by simp)]

theorem processPrintJob_online_failure (st : BotState) (chatId userNumber printJobId : String)
    (o : Nat → Bool) (now : Int) (job : PrintJob)
    (hget : mapGet printJobId st.printQueue = some job)
    (hrun : (executePrintWithRetry o 3).1 = false) :
    processPrintJob st chatId userNumber printJobId true o now =
      let job2 := { job with
        status := JobStatus.failed
        startedAt := some now
        failedAt := some now }
      let q1 := mapSet printJobId { job with status := JobStatus.printing, startedAt := some now }
        st.printQueue
      { st := { st with
          printQueue := mapSet printJobId job2 q1
          userSessions := mapDelete chatId st.userSessions }
        effects :=
          [Effect.reply "Memproses print job...",
           Effect.editReply "Mengirim ke printer...",
           Effect.editReply "Print gagal setelah beberapa percobaan.",
           Effect.scheduleCleanup printJobId 300000]
        attemptsMade := (executePrintWithRetry o 3).2.1 } := by
  simp only [processPrintJob, hget, Bool.not_true, hrun]
  rw [if_neg (by simp), if_neg (by simp)]

/-! ## Rate limiter lemmas -/

theorem admittedTimes_cons_true (t : Int) (rest : List (Int × Bool)) :
    admittedTimes ((t, true) :: rest) = t :: admittedTimes rest := by
  simp [admittedTimes]

theorem admittedTimes_cons_false (t : Int) (rest : List (Int × Bool)) :
    admittedTimes ((t, false) :: rest) = admittedTimes rest := by
  simp [admittedTimes]

theorem filter_window_window (A : List Int) (tp t : Int) (h : tp ≤ t) :
    (A.filter (fun x => decide (tp - hourMs < x))).filter (fun x => decide (t - hourMs < x)) =
      A.filter (fun x => decide (t - hourMs < x)) := by
  rw [List.filter_filter]
  apply List.filter_congr
  intro a _
  by_cases hx : t - hourMs < a
  · have hx' : tp - hourMs < a := by omega
    simp [hx, hx']
  · simp [hx]

theorem rateLimitRun_bound_aux (m : Nat) (ts : List Int) :
    ∀ (A : List Int) (tp : Int),
      List.Chain' (· ≤ ·) (tp :: ts) →
      (∀ x ∈ A, x ≤ tp) →
      (∀ u : Int, A.countP (inWindow u) ≤ m) →
      ∀ u : Int,
        (A ++ admittedTimes
            (rateLimitRun m (A.filter (fun x => decide (tp - hourMs < x))) ts)).countP
          (inWindow u) ≤ m := by
  induction ts with
  | nil =>
    intro A tp _ _ hcount u
    simpa [rateLimitRun, admittedTimes] using hcount u
  | cons t ts ih =>
    intro A tp hchain hle hcount u
    have htpt : tp ≤ t := (List.chain'_cons.mp hchain).1
    have hchain' : List.Chain' (· ≤ ·) (t :: ts) := (List.chain'_cons.mp hchain).2
    have hstep :
        rateLimitRun m (A.filter (fun x => decide (tp - hourMs < x))) (t :: ts) =
          (t, (checkRateLimit m t (A.filter (fun x => decide (tp - hourMs < x)))).1) ::
            rateLimitRun m
              (checkRateLimit m t (A.filter (fun x => decide (tp - hourMs < x)))).2 ts := rfl
    have hrecent :
        (A.filter (fun x => decide (tp - hourMs < x))).filter
            (fun x => decide (t - hourMs < x)) =
          A.filter (fun x => decide (t - hourMs < x)) :=
      filter_window_window A tp t htpt
    by_cases hadm : m ≤ (A.filter (fun x => decide (t - hourMs < x))).length
    · -- denied: no timestamp recorded, the state keeps only the purged list
      have hck :
          checkRateLimit m t (A.filter (fun x => decide (tp - hourMs < x))) =
            (false, A.filter (fun x => decide (t - hourMs < x))) := by
        simp only [checkRateLimit]
        rw [hrecent, if_pos hadm]
      rw [hstep, hck]
      simp only [admittedTimes_cons_false]
      exact ih A t hchain' (fun x hx => le_trans (hle x hx) htpt) hcount u
    · -- admitted: the current time is appended to the purged list
      have hck :
          checkRateLimit m t (A.filter (fun x => decide (tp - hourMs < x))) =
            (true, A.filter (fun x => decide (t - hourMs < x)) ++ [t]) := by
        simp only [checkRateLimit]
        rw [hrecent, if_neg hadm]
      have hlen : (A.filter (fun x => decide (t - hourMs < x))).length < m := by omega
      rw [hstep, hck]
      simp only [admittedTimes_cons_true]
      have hstate :
          A.filter (fun x => decide (t - hourMs < x)) ++ [t] =
            (A ++ [t]).filter (fun x => decide (t - hourMs < x)) := by
        rw [List.filter_append]
        have ht : t - hourMs < t := by unfold hourMs; omega
        simp [ht]
      have hle' : ∀ x ∈ A ++ [t], x ≤ t := by
        intro x hx
        rcases List.mem_append.mp hx with hxa | hxt
        · exact le_trans (hle x hxa) htpt
        · simp only [List.mem_singleton] at hxt
          omega
      have hcount' : ∀ u' : Int, (A ++ [t]).countP (inWindow u') ≤ m := by
        intro u'
        rw [List.countP_append]
        by_cases hw : inWindow u' t = true
        · have htu' : t ≤ u' := by
            have hw2 := hw
            simp only [inWindow, Bool.and_eq_true, decide_eq_true_eq] at hw2
            exact hw2.2
          have hmono : A.countP (inWindow u') ≤
              A.countP (fun x => decide (t - hourMs < x)) := by
            apply List.countP_mono_left
            intro x _ hwx
            simp only [inWindow, Bool.and_eq_true, decide_eq_true_eq] at hwx
            simp only [decide_eq_true_eq]
            omega
          have hcp : A.countP (fun x => decide (t - hourMs < x)) =
              (A.filter (fun x => decide (t - hourMs < x))).length :=
            List.countP_eq_length_filter _ _
          have hone : List.countP (inWindow u') [t] = 1 := by
            simp [List.countP_cons, hw]
          omega
        · have hzero : List.countP (inWindow u') [t] = 0 := by
            simp [List.countP_cons, hw]
          have := hcount u'
          omega
      have hfin := ih (A ++ [t]) t hchain' hle' hcount' u
      rw [← hstate] at hfin
      simpa [List.append_assoc] using hfin

/-! ## Reclamation sweep lemmas -/

theorem cleanupPrintJob_get (st : BotState) (k j : String) :
    mapGet j (cleanupPrintJob st k).1.printQueue =
      if k = j then none else mapGet j st.printQueue := by
  unfold cleanupPrintJob
  cases hk : mapGet k st.printQueue with
  | none =>
    by_cases hkj : k = j
    · subst hkj
      simp [hk]
    · simp [hkj]
  | some job =>
    by_cases hkj : k = j
    · subst hkj
      simp [mapGet_mapDelete_self]
    · simp [hkj, mapGet_mapDelete_ne j k _ (fun h => hkj h.symm)]

theorem sweepFold_get (vs : List (String × PrintJob)) :
    ∀ (acc : BotState × List Effect) (j : String),
      mapGet j (sweepFold vs acc).1.printQueue =
        if vs.any (fun p => decide (p.1 = j)) then none
        else mapGet j acc.1.printQueue := by
  induction vs with
  | nil =>
    intro acc j
    simp [sweepFold]
  | cons v vs ih =>
    intro acc j
    rw [sweepFold, ih]
    by_cases hvj : v.1 = j
    · by_cases hany : vs.any (fun p => decide (p.1 = j)) = true
      · simp [hvj, hany]
      · simp only [hany, if_false, List.any_cons, hvj]
        simp [cleanupPrintJob_get, hvj]
    · by_cases hany : vs.any (fun p => decide (p.1 = j)) = true
      · simp [hvj, hany]
      · simp only [hany, if_false, List.any_cons, hvj]
        simp [cleanupPrintJob_get, hvj, hany]

theorem sweepFold_effects_mono (vs : List (String × PrintJob)) :
    ∀ (acc : BotState × List Effect) (e : Effect),
      e ∈ acc.2 → e ∈ (sweepFold vs acc).2 := by
  induction vs with
  | nil =>
    intro acc e he
    simpa [sweepFold] using he
  | cons v vs ih =>
    intro acc e he
    rw [sweepFold]
    exact ih _ e (List.mem_append.mpr (Or.inl he))

theorem sweepFold_unlink (vs : List (String × PrintJob)) :
    ∀ (acc : BotState × List Effect) (k : String) (job : PrintJob),
      (k, job) ∈ vs → (vs.map Prod.fst).Nodup →
      mapGet k acc.1.printQueue = some job →
      Effect.unlinkFile job.filePath ∈ (sweepFold vs acc).2 := by
  induction vs with
  | nil =>
    intro acc k job hmem
    simp at hmem
  | cons v vs ih =>
    intro acc k job hmem hnd hget
    rw [sweepFold]
    rcases List.mem_cons.mp hmem with hv | hv
    · -- the head entry is the one holding the job: its file is unlinked now
      have hkv : v.1 = k := by rw [← hv]
      have hstep : cleanupPrintJob acc.1 v.1 =
          ({ acc.1 with printQueue := mapDelete v.1 acc.1.printQueue },
           [Effect.unlinkFile job.filePath]) := by
        unfold cleanupPrintJob
        rw [hkv, hget]
      apply sweepFold_effects_mono
      rw [hstep]
      simp
    · -- the job sits further down the list: the head deletion leaves it alone
      have hne : v.1 ≠ k := by
        intro heq
        rw [List.map_cons] at hnd
        apply (List.nodup_cons.mp hnd).1
        rw [heq]
        exact List.mem_map.mpr ⟨(k, job), hv, rfl⟩
      have hget' : mapGet k (cleanupPrintJob acc.1 v.1).1.printQueue = some job := by
        rw [cleanupPrintJob_get, if_neg hne, hget]
      have hnd' : (vs.map Prod.fst).Nodup := by
        rw [List.map_cons] at hnd
        exact (List.nodup_cons.mp hnd).2
      exact ih _ k job hv hnd' hget'

theorem victims_any_iff (q : List (String × PrintJob)) (f : PrintJob → Bool)
    (j : String) (job : PrintJob)
    (hnd : (q.map Prod.fst).Nodup) (hget : mapGet j q = some job) :
    (q.filter (fun p => f p.2)).any (fun p => decide (p.1 = j)) = f job := by
  induction q with
  | nil => simp [mapGet] at hget
  | cons a t ih =>
    rw [List.map_cons] at hnd
    have hnd1 := (List.nodup_cons.mp hnd).1
    have hndt := (List.nodup_cons.mp hnd).2
    by_cases haj : a.1 = j
    · have hjob : a.2 = job := by
        unfold mapGet at hget
        rw [List.find?_cons_of_pos _ (by simpa using haj)] at hget
        simpa using hget
      have htail : ∀ p ∈ t.filter (fun p => f p.2), ¬ p.1 = j := by
        intro p hp hpj
        apply hnd1
        rw [haj, ← hpj]
        exact List.mem_map.mpr ⟨p, List.mem_of_mem_filter hp, rfl⟩
      rw [List.filter_cons]
      by_cases hf : f a.2 = true
      · rw [if_pos (by simp [hf]), List.any_cons]
        have hhead : (decide (a.1 = j)) = true := by simpa using haj
        rw [hhead, Bool.true_or, ← hjob]
        exact hf.symm
      · have hfb : f a.2 = false := by
          cases hfa : f a.2
          · rfl
          · exact absurd hfa hf
        rw [if_neg (by simp [hfb])]
        rw [hjob] at hfb
        rw [hfb]
        rw [List.any_eq_false]
        intro p hp
        simpa using htail p hp
    · have hget' : mapGet j t = some job := by
        unfold mapGet at hget ⊢
        rwa [List.find?_cons_of_neg _ (by simpa using haj)] at hget
      rw [List.filter_cons]
      by_cases hf : f a.2 = true
      · rw [if_pos (by simp [hf]), List.any_cons]
        rw [ih hndt hget']
        simp [haj]
      · rw [if_neg (by simpa using hf)]
        exact ih hndt hget'

/-! ## Claim C1: estimated cost formula -/

/-- Claim C1 counterexample: under a config with defaultCopies = 2, the job
created by handleFileMessage has estimatedCost 1500 (pageCount 3 times the
black-and-white rate 500) and copies 2, so the claimed invariant
estimatedCost = pageCount × copies × rate fails already at creation. -/
theorem C1_counterexample :
    exJobTwoCopies.estimatedCost ≠
      exJobTwoCopies.pageCount * exJobTwoCopies.copies * bwCostPerPage := by
  decide

/-- Claim C1 (amended): at creation the estimated cost is pageCount times the
per-page rate with no copies factor — the claimed formula holds at creation
only when the configured default copies is 1 — and after every copies change
accepted by handleCopiesInput the cost is recomputed to
pageCount × copies × rate. -/
theorem C1_thm :
    (∀ (idStr fileName originalName filePath extension : String)
       (pageCount fileSize : Nat) (hasColor : Bool) (chatId userNumber : String)
       (defaultCopies : Nat) (now : Int),
       (createPrintJob idStr fileName originalName filePath extension pageCount fileSize
           hasColor chatId userNumber defaultCopies now).estimatedCost =
         pageCount * (if hasColor then colorCostPerPage else bwCostPerPage))
    ∧ ∀ (st : BotState) (chatId response printJobId : String) (now : Int)
        (job : PrintJob) (k : Int),
        mapGet printJobId st.printQueue = some job →
        jsParseInt response = some k → 1 ≤ k → k ≤ 10 →
        ∃ job', mapGet printJobId
              (handleCopiesInput st chatId response printJobId now).1.printQueue = some job'
          ∧ job'.copies = k.toNat
          ∧ job'.estimatedCost = job.pageCount * job'.copies *
              (if job.printOptions.color then colorCostPerPage else bwCostPerPage) := by
  constructor
  · intro idStr fileName originalName filePath extension pageCount fileSize hasColor
      chatId userNumber defaultCopies now
    rfl
  · intro st chatId response printJobId now job k hget hparse h1 h10
    rw [handleCopiesInput_valid st chatId response printJobId now job k hget hparse h1 h10]
    refine ⟨_, mapGet_mapSet_self _ _ _, rfl, ?_⟩
    simp only [calculatePrintCost]
    cases job.printOptions.color <;> simp [bwCostPerPage, colorCostPerPage] <;> ring

/-- Claim C1 witness: a copies change to 7 on the stock three-page job leaves
a job whose cost satisfies the formula. -/
theorem C1_witness :
    exJob.estimatedCost = 3 * (if false then colorCostPerPage else bwCostPerPage) ∧
    ∃ job', mapGet exJob.id
          (handleCopiesInput (mkState [(exJob.id, exJob)] [("628@c.us", exSession Step.set_copies)])
            "628@c.us" "7" exJob.id 1730000100000).1.printQueue = some job'
      ∧ job'.copies = (7 : Int).toNat
      ∧ job'.estimatedCost = exJob.pageCount * job'.copies *
          (if exJob.printOptions.color then colorCostPerPage else bwCostPerPage) := by
  constructor
  · exact C1_thm.1 "1730000000000" "print_628_1730000000000.pdf" "doc.pdf"
      "temp/print_628_1730000000000.pdf" "pdf" 3 2048 false "628@c.us" "628" 1 1730000000000
  · exact C1_thm.2 (mkState [(exJob.id, exJob)] [("628@c.us", exSession Step.set_copies)])
      "628@c.us" "7" exJob.id 1730000100000 exJob 7 (by rfl) (by rfl) (by decide) (by decide)

/-! ## Claim C2: mutations gated on pending status -/

/-- Claim C2 counterexample: handleCopiesInput applied to a job whose status
is completed still mutates it — copies become 5 and the cost is recomputed —
instead of rejecting the mutation as InvalidState and leaving the job
unchanged. -/
theorem C2_counterexample :
    exJobCompleted.status ≠ JobStatus.pending ∧
    mapGet exJob.id
        (handleCopiesInput (mkState [(exJob.id, exJobCompleted)] []) "628@c.us" "5" exJob.id 0).1.printQueue =
      some { exJobCompleted with copies := 5, estimatedCost := 7500 } := by
  constructor
  · decide
  · rfl

/-- Claim C2 (amended): copies and duplex mutations carry no status check at
all — they are applied to a job of any status, preserving that status, and no
InvalidState rejection exists — while the quality and paper-size menu options
call methods bot.js never defines and throw TypeErrors. -/
theorem C2_thm :
    ∀ (st : BotState) (chatId printJobId response : String) (now : Int)
      (job : PrintJob) (k : Int),
      mapGet printJobId st.printQueue = some job →
      jsParseInt response = some k → 1 ≤ k → k ≤ 10 →
      (∃ job', mapGet printJobId
            (handleCopiesInput st chatId response printJobId now).1.printQueue = some job'
         ∧ job'.copies = k.toNat ∧ job'.status = job.status)
      ∧ (∃ st' effs, handleOptionsInput st chatId "4" printJobId now = Except.ok (st', effs)
          ∧ ∃ job', mapGet printJobId st'.printQueue = some job'
             ∧ job'.printOptions.duplex = !job.printOptions.duplex ∧ job'.status = job.status)
      ∧ handleOptionsInput st chatId "2" printJobId now =
          Except.error "TypeError: this.showQualityOptions is not a function"
      ∧ handleOptionsInput st chatId "3" printJobId now =
          Except.error "TypeError: this.showPaperSizeOptions is not a function" := by
  intro st chatId printJobId response now job k hget hparse h1 h10
  refine ⟨?_, ?_, ?_, ?_⟩
  · rw [handleCopiesInput_valid st chatId response printJobId now job k hget hparse h1 h10]
    exact ⟨_, mapGet_mapSet_self _ _ _, rfl, rfl⟩
  · rw [handleOptionsInput_duplex st chatId printJobId now job hget]
    exact ⟨_, _, rfl, _, mapGet_mapSet_self _ _ _, rfl, rfl⟩
  · simp [handleOptionsInput, hget]
  · simp [handleOptionsInput, hget]

/-- Claim C2 witness: the copies mutation is applied to a completed job. -/
theorem C2_witness :
    exJobCompleted.status = JobStatus.completed ∧
    ∃ job', mapGet exJob.id
          (handleCopiesInput (mkState [(exJob.id, exJobCompleted)] []) "628@c.us" "5" exJob.id 0).1.printQueue =
        some job'
      ∧ job'.copies = (5 : Int).toNat ∧ job'.status = exJobCompleted.status := by
  refine ⟨rfl, ?_⟩
  exact (C2_thm (mkState [(exJob.id, exJobCompleted)] []) "628@c.us" exJob.id "5" 0
    exJobCompleted 5 (by rfl) (by rfl) (by decide) (by decide)).1

/-! ## Claim C3: cancellation in confirm print -/

/-- Claim C3: every cancellation word in the confirm_print step routes to
this.cancelPrintJob, a method bot.js never defines, so the handler throws a
TypeError instead of removing the job and deleting the session — the job and
the session are left untouched when the exception propagates. -/
theorem C3_thm :
    (handleUserResponse (mkState [(exJob.id, exJob)] [("628@c.us", exSession Step.confirm_print)])
        "628@c.us" "628" "batal" true (fun _ => true) 0 =
      Except.error "TypeError: this.cancelPrintJob is not a function")
    ∧ (handleUserResponse (mkState [(exJob.id, exJob)] [("628@c.us", exSession Step.confirm_print)])
        "628@c.us" "628" "cancel" true (fun _ => true) 0 =
      Except.error "TypeError: this.cancelPrintJob is not a function")
    ∧ (handleUserResponse (mkState [(exJob.id, exJob)] [("628@c.us", exSession Step.confirm_print)])
        "628@c.us" "628" "no" true (fun _ => true) 0 =
      Except.error "TypeError: this.cancelPrintJob is not a function")
    ∧ (handleUserResponse (mkState [(exJob.id, exJob)] [("628@c.us", exSession Step.confirm_print)])
        "628@c.us" "628" "tidak" true (fun _ => true) 0 =
      Except.error "TypeError: this.cancelPrintJob is not a function") := by
  refine ⟨rfl, rfl, rfl, rfl⟩

/-! ## Claim C4: failed jobs and the history list -/

/-- Claim C4: when all three print attempts fail, the job ends failed with a
failure timestamp recorded, but no snapshot is appended to printHistory — the
history append sits only in the success branch, so the history never holds a
failed job (even though sendBotStats counts history entries with status
failed). -/
theorem C4_thm :
    (processPrintJob (mkState [(exJob.id, exJob)] [("628@c.us", exSession Step.confirm_print)])
        "628@c.us" "628" exJob.id true (fun _ => false) 1730000100000).attemptsMade = 3
    ∧ mapGet exJob.id
        (processPrintJob (mkState [(exJob.id, exJob)] [("628@c.us", exSession Step.confirm_print)])
          "628@c.us" "628" exJob.id true (fun _ => false) 1730000100000).st.printQueue =
      some { exJob with status := JobStatus.failed, startedAt := some 1730000100000, failedAt := some 1730000100000 }
    ∧ (processPrintJob (mkState [(exJob.id, exJob)] [("628@c.us", exSession Step.confirm_print)])
        "628@c.us" "628" exJob.id true (fun _ => false) 1730000100000).st.printHistory = [] := by
  refine ⟨rfl, rfl, rfl⟩

/-! ## Claim C5: deferred removal and session deletion -/

/-- Claim C5 counterexample: in the printer-offline outcome processPrintJob
returns early — the emitted effects contain no scheduleCleanup timer and the
session survives — refuting the claim that removal is scheduled and the
session deleted regardless of outcome. -/
theorem C5_counterexample :
    (processPrintJob (mkState [(exJob.id, exJob)] [("628@c.us", exSession Step.confirm_print)])
        "628@c.us" "628" exJob.id false (fun _ => true) 1730000100000).effects =
      [Effect.reply "Memproses print job...",
       Effect.editReply "Printer sedang offline atau bermasalah. Silakan coba lagi nanti."]
    ∧ mapGet "628@c.us"
        (processPrintJob (mkState [(exJob.id, exJob)] [("628@c.us", exSession Step.confirm_print)])
          "628@c.us" "628" exJob.id false (fun _ => true) 1730000100000).st.userSessions =
      some (exSession Step.confirm_print) := by
  refine ⟨rfl, rfl⟩

/-- Claim C5 (amended): for runs that pass the health gate — both the
completed and the failed-after-retries outcomes — processPrintJob schedules
deferred removal of the job after the fixed 300000 ms grace window and
deletes the conversation session; in the printer-offline path the function
returns early, so no removal is scheduled and the session survives. -/
theorem C5_thm :
    ∀ (st : BotState) (chatId userNumber printJobId : String) (o : Nat → Bool)
      (now : Int) (job : PrintJob),
      mapGet printJobId st.printQueue = some job →
      (Effect.scheduleCleanup printJobId 300000 ∈
          (processPrintJob st chatId userNumber printJobId true o now).effects
        ∧ mapGet chatId
            (processPrintJob st chatId userNumber printJobId true o now).st.userSessions = none)
      ∧ ((processPrintJob st chatId userNumber printJobId false o now).st.userSessions =
            st.userSessions
        ∧ Effect.scheduleCleanup printJobId 300000 ∉
            (processPrintJob st chatId userNumber printJobId false o now).effects) := by
  intro st chatId userNumber printJobId o now job hget
  constructor
  · cases hrun : (executePrintWithRetry o 3).1
    · rw [processPrintJob_online_failure st chatId userNumber printJobId o now job hget hrun]
      exact ⟨by simp, mapGet_mapDelete_self _ _⟩
    · rw [processPrintJob_online_success st chatId userNumber printJobId o now job hget hrun]
      exact ⟨by simp, mapGet_mapDelete_self _ _⟩
  · rw [processPrintJob_offline st chatId userNumber printJobId o now job hget]
    exact ⟨rfl, by simp⟩

/-- Claim C5 witness: a successful run on the stock state schedules the
5-minute removal and deletes the session. -/
theorem C5_witness :
    Effect.scheduleCleanup exJob.id 300000 ∈
      (processPrintJob (mkState [(exJob.id, exJob)] [("628@c.us", exSession Step.confirm_print)])
        "628@c.us" "628" exJob.id true (fun _ => true) 0).effects
    ∧ mapGet "628@c.us"
        (processPrintJob (mkState [(exJob.id, exJob)] [("628@c.us", exSession Step.confirm_print)])
          "628@c.us" "628" exJob.id true (fun _ => true) 0).st.userSessions = none := by
  exact (C5_thm (mkState [(exJob.id, exJob)] [("628@c.us", exSession Step.confirm_print)])
    "628@c.us" "628" exJob.id (fun _ => true) 0 exJob (by rfl)).1

/-! ## Claim C6: bounded retries with fixed delay -/

theorem processPrintJob_online_attempts (st : BotState)
    (chatId userNumber printJobId : String) (o : Nat → Bool) (now : Int) (job : PrintJob)
    (hget : mapGet printJobId st.printQueue = some job) :
    (processPrintJob st chatId userNumber printJobId true o now).attemptsMade =
      (executePrintWithRetry o 3).2.1 := by
  cases hrun : (executePrintWithRetry o 3).1
  · rw [processPrintJob_online_failure st chatId userNumber printJobId o now job hget hrun]
  · rw [processPrintJob_online_success st chatId userNumber printJobId o now job hget hrun]

/-- Claim C6: for runs past the health gate the engine makes at most three
attempts; it succeeds exactly when one of the three attempts succeeds; the
total wait is retryDelayMs per gap between consecutive attempts and none
after the last; a first success at attempt k stops the loop after exactly k
attempts; failure is reported only after all three attempts ran; and
processPrintJob reports exactly the attempts of executePrintWithRetry with
maxRetries 3. -/
theorem C6_thm :
    ∀ o : Nat → Bool,
      (executePrintWithRetry o 3).2.1 ≤ 3
      ∧ (executePrintWithRetry o 3).1 = (o 1 || o 2 || o 3)
      ∧ (executePrintWithRetry o 3).2.2 = retryDelayMs * ((executePrintWithRetry o 3).2.1 - 1)
      ∧ ((executePrintWithRetry o 3).1 = false → (executePrintWithRetry o 3).2.1 = 3)
      ∧ (∀ k, 1 ≤ k → k ≤ 3 → o k = true → (∀ j, 1 ≤ j → j < k → o j = false) →
          (executePrintWithRetry o 3).1 = true ∧ (executePrintWithRetry o 3).2.1 = k)
      ∧ (∀ (st : BotState) (chatId userNumber printJobId : String) (now : Int)
            (job : PrintJob),
          mapGet printJobId st.printQueue = some job →
          (processPrintJob st chatId userNumber printJobId true o now).attemptsMade =
            (executePrintWithRetry o 3).2.1) := by
  intro o
  refine ⟨?_, ?_, ?_, ?_, ?_, ?_⟩
  · cases h1 : o 1 <;> cases h2 : o 2 <;> cases h3 : o 3 <;>
      simp [executePrintWithRetry_three, h1, h2, h3]
  · cases h1 : o 1 <;> cases h2 : o 2 <;> cases h3 : o 3 <;>
      simp [executePrintWithRetry_three, h1, h2, h3]
  · cases h1 : o 1 <;> cases h2 : o 2 <;> cases h3 : o 3 <;>
      simp [executePrintWithRetry_three, h1, h2, h3, retryDelayMs]
  · cases h1 : o 1 <;> cases h2 : o 2 <;> cases h3 : o 3 <;>
      simp [executePrintWithRetry_three, h1, h2, h3]
  · intro k hk1 hk3 hok hprev
    interval_cases k
    · simp [executePrintWithRetry_three, hok]
    · have h1 : o 1 = false := hprev 1 (by norm_num) (by norm_num)
      simp [executePrintWithRetry_three, h1, hok]
    · have h1 : o 1 = false := hprev 1 (by norm_num) (by norm_num)
      have h2 : o 2 = false := hprev 2 (by norm_num) (by norm_num)
      simp [executePrintWithRetry_three, h1, h2, hok]
  · intro st chatId userNumber printJobId now job hget
    exact processPrintJob_online_attempts st chatId userNumber printJobId o now job hget

/-- Claim C6 witness: with the first two attempts failing and the third
succeeding, the engine succeeds after exactly three attempts and two
2000 ms waits. -/
theorem C6_witness :
    (executePrintWithRetry (fun k => decide (k = 3)) 3).1 = true
    ∧ (executePrintWithRetry (fun k => decide (k = 3)) 3).2.1 = 3
    ∧ (executePrintWithRetry (fun k => decide (k = 3)) 3).2.2 = 4000 := by
  have h := C6_thm (fun k => decide (k = 3))
  have hk := h.2.2.2.2.1 3 (by norm_num) (by norm_num) (by decide)
    (by
      intro j hj1 hj3
      simp only [decide_eq_false_iff_not]
      omega)
  refine ⟨hk.1, hk.2, ?_⟩
  have hw := h.2.2.1
  rw [hk.2] at hw
  simpa [retryDelayMs] using hw

/-! ## Claim C7: offline health gate -/

/-- Claim C7: when the health check reports offline, the job ends failed and
no print attempt at all is made; the failure is terminal within the run and
nothing retries it. -/
theorem C7_thm :
    ∀ (st : BotState) (chatId userNumber printJobId : String) (o : Nat → Bool)
      (now : Int) (job : PrintJob),
      mapGet printJobId st.printQueue = some job →
      mapGet printJobId
          (processPrintJob st chatId userNumber printJobId false o now).st.printQueue =
        some { job with status := JobStatus.failed, startedAt := some now }
      ∧ (processPrintJob st chatId userNumber printJobId false o now).attemptsMade = 0 := by
  intro st chatId userNumber printJobId o now job hget
  rw [processPrintJob_offline st chatId userNumber printJobId o now job hget]
  exact ⟨mapGet_mapSet_self _ _ _, rfl⟩

/-- Claim C7 witness: the stock pending job submitted against an offline
printer ends failed with zero attempts. -/
theorem C7_witness :
    mapGet exJob.id
        (processPrintJob (mkState [(exJob.id, exJob)] []) "628@c.us" "628" exJob.id false
          (fun _ => true) 1730000100000).st.printQueue =
      some { exJob with status := JobStatus.failed, startedAt := some 1730000100000 }
    ∧ (processPrintJob (mkState [(exJob.id, exJob)] []) "628@c.us" "628" exJob.id false
        (fun _ => true) 1730000100000).attemptsMade = 0 := by
  exact C7_thm (mkState [(exJob.id, exJob)] []) "628@c.us" "628" exJob.id
    (fun _ => true) 1730000100000 exJob (by rfl)

/-! ## Claim C8: rate limiter sliding window -/

/-- Claim C8: for every sender — each sender owns an independent timestamp
list — and every monotone sequence of call times, checkRateLimit admits at
most maxRequestsPerHour calls within any trailing one-hour window; and a
denied call records nothing: the stored list afterwards is exactly the lazily
purged list of still-recent timestamps. -/
theorem C8_thm :
    (∀ (m : Nat) (ts : List Int), List.Chain' (· ≤ ·) ts →
       ∀ u : Int, (admittedTimes (rateLimitRun m [] ts)).countP (inWindow u) ≤ m)
    ∧ (∀ (m : Nat) (now : Int) (stored : List Int),
        (checkRateLimit m now stored).1 = false →
        (checkRateLimit m now stored).2 =
          stored.filter (fun ts => decide (now - hourMs < ts))) := by
  constructor
  · intro m ts hchain u
    cases ts with
    | nil => simp [rateLimitRun, admittedTimes]
    | cons t ts' =>
      have hchain' : List.Chain' (· ≤ ·) (t :: t :: ts') :=
        List.chain'_cons.mpr ⟨le_refl t, hchain⟩
      have h := rateLimitRun_bound_aux m (t :: ts') [] t hchain' (by simp) (by simp) u
      simpa using h
  · intro m now stored hdeny
    by_cases hc : m ≤ (stored.filter (fun ts => decide (now - hourMs < ts))).length
    · simp only [checkRateLimit]
      rw [if_pos hc]
    · exfalso
      simp only [checkRateLimit] at hdeny
      rw [if_neg hc] at hdeny
      simp at hdeny

/-- Claim C8 witness: with a cap of 2, the third call inside the same hour is
denied and the denied call stores only the purged list. -/
theorem C8_witness :
    List.Chain' (· ≤ ·) ([0, 1000, 2000] : List Int)
    ∧ (admittedTimes (rateLimitRun 2 [] [0, 1000, 2000])).countP (inWindow 2000) ≤ 2
    ∧ (checkRateLimit 2 2000 [0, 1000]).1 = false
    ∧ (checkRateLimit 2 2000 [0, 1000]).2 = [0, 1000] := by
  refine ⟨by norm_num [List.chain'_cons], C8_thm.1 2 [0, 1000, 2000]
    (by norm_num [List.chain'_cons]) 2000, by decide, ?_⟩
  have h := C8_thm.2 2 2000 [0, 1000] (by decide)
  rw [h]
  decide

/-! ## Claim C9: dangling sessions at transition points -/

/-- Claim C9 counterexample: a set_copies session whose job is gone gets only
an error reply from handleCopiesInput — the state, and so the dangling
session, survives the access unchanged. -/
theorem C9_counterexample :
    handleCopiesInput (mkState [] [("628@c.us", exSession Step.set_copies)])
        "628@c.us" "5" exJob.id 0 =
      (mkState [] [("628@c.us", exSession Step.set_copies)],
       [Effect.reply "Print job tidak ditemukan."])
    ∧ mapGet "628@c.us" (mkState [] [("628@c.us", exSession Step.set_copies)]).userSessions =
        some (exSession Step.set_copies) := by
  refine ⟨rfl, rfl⟩

/-- Claim C9 (amended): on a missing job only the confirm_print YA path
(processPrintJob) deletes the session besides replying; handleOptionsInput,
handleCopiesInput and showPrintOptions reply with an error but leave the
whole state — including the dangling session — untouched. -/
theorem C9_thm :
    ∀ (st : BotState) (chatId userNumber response printJobId : String)
      (printerOnline : Bool) (o : Nat → Bool) (now : Int),
      mapGet printJobId st.printQueue = none →
      handleCopiesInput st chatId response printJobId now =
          (st, [Effect.reply "Print job tidak ditemukan."])
      ∧ handleOptionsInput st chatId response printJobId now =
          Except.ok (st, [Effect.reply "Print job tidak ditemukan."])
      ∧ showPrintOptions st chatId printJobId now =
          (st, [Effect.reply "Print job tidak ditemukan."])
      ∧ (processPrintJob st chatId userNumber printJobId printerOnline o now).st.userSessions =
          mapDelete chatId st.userSessions := by
  intro st chatId userNumber response printJobId printerOnline o now hget
  refine ⟨handleCopiesInput_notfound st chatId response printJobId now hget,
    handleOptionsInput_notfound st chatId response printJobId now hget,
    ?_, ?_⟩
  · simp [showPrintOptions, hget]
  · rw [processPrintJob_notfound st chatId userNumber printJobId printerOnline o now hget]

/-- Claim C9 witness: the three read paths on an empty queue leave the state
unchanged while the confirm path deletes the session. -/
theorem C9_witness :
    handleCopiesInput (mkState [] [("628@c.us", exSession Step.set_copies)])
        "628@c.us" "5" exJob.id 0 =
      (mkState [] [("628@c.us", exSession Step.set_copies)],
       [Effect.reply "Print job tidak ditemukan."])
    ∧ handleOptionsInput (mkState [] [("628@c.us", exSession Step.set_copies)])
        "628@c.us" "5" exJob.id 0 =
      Except.ok (mkState [] [("628@c.us", exSession Step.set_copies)],
       [Effect.reply "Print job tidak ditemukan."])
    ∧ showPrintOptions (mkState [] [("628@c.us", exSession Step.set_copies)])
        "628@c.us" exJob.id 0 =
      (mkState [] [("628@c.us", exSession Step.set_copies)],
       [Effect.reply "Print job tidak ditemukan."])
    ∧ (processPrintJob (mkState [] [("628@c.us", exSession Step.set_copies)])
        "628@c.us" "628" exJob.id true (fun _ => true) 0).st.userSessions =
      mapDelete "628@c.us" (mkState [] [("628@c.us", exSession Step.set_copies)]).userSessions := by
  exact C9_thm (mkState [] [("628@c.us", exSession Step.set_copies)])
    "628@c.us" "628" "5" exJob.id true (fun _ => true) 0 (by rfl)

/-! ## Claim C10: the job sweep as a backstop -/

/-- Claim C10 counterexample: a job abandoned before confirmation — still
pending — and two hours old survives cleanupOldPrintJobs untouched: the sweep
removes only terminal jobs, so it is no backstop for unconfirmed jobs. -/
theorem C10_counterexample :
    exJob.status = JobStatus.pending
    ∧ ((1730000000000 : Int) + 7200000) - exJob.createdAt > jobMaxAgeMs
    ∧ cleanupOldPrintJobs (mkState [(exJob.id, exJob)] []) (1730000000000 + 7200000) =
        (mkState [(exJob.id, exJob)] [], []) := by
  refine ⟨rfl, by decide, rfl⟩

/-- Claim C10 (amended): the job sweep removes exactly the terminal jobs
older than the max age: with unique queue keys a pending job is never removed
by the sweep no matter its age, while a terminal job older than jobMaxAgeMs
is removed and its backing file unlinked. -/
theorem C10_thm :
    ∀ (st : BotState) (now : Int) (j : String) (job : PrintJob),
      (st.printQueue.map Prod.fst).Nodup →
      mapGet j st.printQueue = some job →
      (job.status = JobStatus.pending →
         mapGet j (cleanupOldPrintJobs st now).1.printQueue = some job)
      ∧ (sweepVictim now job = true →
          mapGet j (cleanupOldPrintJobs st now).1.printQueue = none
          ∧ Effect.unlinkFile job.filePath ∈ (cleanupOldPrintJobs st now).2) := by
  intro st now j job hnd hget
  have hany := victims_any_iff st.printQueue (fun jb => sweepVictim now jb) j job hnd hget
  constructor
  · intro hpend
    have hsv : sweepVictim now job = false := by
      simp [sweepVictim, hpend]
    rw [cleanupOldPrintJobs, sweepFold_get, hany]
    simp only [hsv]
    simpa using hget
  · intro hsv
    constructor
    · rw [cleanupOldPrintJobs, sweepFold_get, hany]
      simp [hsv]
    · rw [cleanupOldPrintJobs]
      apply sweepFold_unlink _ _ j job
      · exact List.mem_filter.mpr ⟨mapGet_mem hget, by simpa using hsv⟩
      · exact List.Nodup.sublist (List.Sublist.map _ (List.filter_sublist _)) hnd
      · exact hget

/-- Claim C10 witness: a completed job two hours old is removed by the sweep
and its temp file unlinked, while the same-aged pending job survives. -/
theorem C10_witness :
    (mapGet exJob.id
        (cleanupOldPrintJobs (mkState [(exJob.id, exJobCompleted)] [])
          (1730000000000 + 7200000)).1.printQueue = none
      ∧ Effect.unlinkFile exJobCompleted.filePath ∈
          (cleanupOldPrintJobs (mkState [(exJob.id, exJobCompleted)] [])
            (1730000000000 + 7200000)).2)
    ∧ mapGet exJob.id
        (cleanupOldPrintJobs (mkState [(exJob.id, exJob)] [])
          (1730000000000 + 7200000)).1.printQueue = some exJob := by
  constructor
  · exact (C10_thm (mkState [(exJob.id, exJobCompleted)] []) (1730000000000 + 7200000)
      exJob.id exJobCompleted (by simp [mkState]) (by rfl)).2 (by decide)
  · exact (C10_thm (mkState [(exJob.id, exJob)] []) (1730000000000 + 7200000)
      exJob.id exJob (by simp [mkState]) (by rfl)).1 rfl

end Waprint
